import Mathlib

/-!
Shallow embedding of the request boundary layer of the playground UI server
(`src/ui/src/main.rs`) together with the sandbox-facing value objects it
exchanges with the sandbox core.  Pure functions are translated directly.
The generic HTTP handler `with_sandbox` is modelled as a function from its
inputs (the parsed request body, the behavior of the sandbox core, the two
serializers) to the HTTP response it produces, threading an explicit trace
that records every call of `Sandbox::new` and every operation invoked on
the core, so that ordering and single-use properties become statable.
-/

namespace sandbox

/-- Channel enum of the sandbox core, the closed set `Stable`, `Beta`,
`Nightly` matched by `parse_channel` in `main.rs`. -/
inductive Channel
| Stable
| Beta
| Nightly
deriving Repr, DecidableEq

/-- Mode enum of the sandbox core, the closed set `Debug`, `Release`
matched by `parse_mode` in `main.rs`. -/
inductive Mode
| Debug
| Release
deriving Repr, DecidableEq

/-- CompileTarget enum of the sandbox core, the closed set `Assembly`,
`LlvmIr` matched by `parse_target` in `main.rs`. -/
inductive CompileTarget
| Assembly
| LlvmIr
deriving Repr, DecidableEq

/-- Modelled from the spec: the sandbox-internal `sandbox::Error` type
(its definition lives in the sandbox module, not in the reviewed boundary
file).  At the boundary only its human-readable display form is observable,
so it is modelled as that display string. -/
structure Error where
display : String
deriving Repr, DecidableEq

/-- Modelled from the spec: the `Sandbox` facade value.  Its internals
(environment handle, working directory) are never inspected by the
boundary layer, which only moves it into the operation closure. -/
inductive Sandbox
| mk
deriving Repr, DecidableEq

/-- Sandbox-level compile request, with the fields constructed by the
`TryFrom<CompileRequest>` impl in `main.rs`. -/
structure CompileRequest where
target : CompileTarget
channel : Channel
mode : Mode
tests : Bool
code : String
deriving Repr, DecidableEq

/-- Sandbox-level execute request, with the fields constructed by the
`TryFrom<ExecuteRequest>` impl in `main.rs`. -/
structure ExecuteRequest where
channel : Channel
mode : Mode
tests : Bool
code : String
deriving Repr, DecidableEq

/-- Sandbox-level format request, with the field constructed by the
`From<FormatRequest>` impl in `main.rs`. -/
structure FormatRequest where
code : String
deriving Repr, DecidableEq

/-- Sandbox-level compile response, with the fields read by the
`From<sandbox::CompileResponse>` impl in `main.rs`. -/
structure CompileResponse where
success : Bool
code : String
stdout : String
stderr : String
deriving Repr, DecidableEq

/-- Sandbox-level execute response, with the fields read by the
`From<sandbox::ExecuteResponse>` impl in `main.rs`. -/
structure ExecuteResponse where
success : Bool
stdout : String
stderr : String
deriving Repr, DecidableEq

/-- Sandbox-level format response, with the fields read by the
`From<sandbox::FormatResponse>` impl in `main.rs`. -/
structure FormatResponse where
success : Bool
code : String
stdout : String
stderr : String
deriving Repr, DecidableEq

end sandbox

namespace ui

/-- Modelled from the spec: the deserialization error produced by the
`bodyparser` crate.  Only its display form is observable at this boundary. -/
structure BodyError where
display : String
deriving Repr, DecidableEq

/-- Modelled from the spec: a `serde_json` serialization error.  Only its
display form is observable at this boundary. -/
structure SerError where
display : String
deriving Repr, DecidableEq

/-- Boundary error enum `Error` of `main.rs` (the `quick_error!` block). -/
inductive Error
| Sandbox (err : sandbox.Error)
| Serialization (err : SerError)
| Deserialization (err : BodyError)
| InvalidTarget (value : String)
| InvalidChannel (value : String)
| InvalidMode (value : String)
| RequestMissing
deriving Repr, DecidableEq

/-- Hex digit characters used by the escape models below. -/
def hexChar (n : Nat) : Char :=
if n < 10 then Char.ofNat (48 + n) else Char.ofNat (87 + n)

/-- Escape of one character under the Rust Debug formatting of a string
(the `\x7b:?\x7d` format used by the `display(...)` lines of the error
enum), following `char::escape_debug`: backslash, double quote, newline,
carriage return and tab are backslash-escaped, other control characters
become a braced unicode escape of minimal width.  Unicode printability of
characters above 0x7f is approximated as printable. -/
def rustDebugChar (c : Char) : String :=
if c.toNat = 92 then "\\\\"
else if c.toNat = 34 then "\\\""
else if c.toNat = 10 then "\\n"
else if c.toNat = 13 then "\\r"
else if c.toNat = 9 then "\\t"
else if c.toNat < 32 ∨ c.toNat = 127 then
  "\\u\x7b" ++
    (if c.toNat < 16 then String.singleton (hexChar c.toNat)
     else String.singleton (hexChar (c.toNat / 16)) ++
          String.singleton (hexChar (c.toNat % 16))) ++ "\x7d"
else String.singleton c

/-- Rust Debug formatting of a string value: the escaped characters
surrounded by double quotes. -/
def rustDebug (s : String) : String :=
"\"" ++ String.join (s.toList.map rustDebugChar) ++ "\""

/-- Display form of the boundary `Error` enum, from the `display(...)`
lines of the `quick_error!` block in `main.rs`. -/
def Error.displayText : Error → String
| Error.Sandbox err => "Sandbox operation failed: " ++ err.display
| Error.Serialization err => "Unable to serialize response: " ++ err.display
| Error.Deserialization err => "Unable to deserialize request: " ++ err.display
| Error.InvalidTarget value => "The value " ++ rustDebug value ++ " is not a valid target"
| Error.InvalidChannel value => "The value " ++ rustDebug value ++ " is not a valid channel"
| Error.InvalidMode value => "The value " ++ rustDebug value ++ " is not a valid mode"
| Error.RequestMissing => "No request was provided"

/-- Fallback body `FATAL_ERROR_JSON` of `main.rs`, returned when even the
error report fails to serialize. -/
def FATAL_ERROR_JSON : String :=
"\x7b\"error\": \"Multiple cascading errors occurred, abandon all hope\"\x7d"

/-- Boundary struct `ErrorJson` of `main.rs`: the single-field error body. -/
structure ErrorJson where
error : String
deriving Repr, DecidableEq

/-- Escape of one character under JSON string serialization as produced by
`serde_json`: double quote and backslash are backslash-escaped, the common
control characters get their short escapes, remaining control characters
become a four-digit unicode escape. -/
def jsonEscapeChar (c : Char) : String :=
if c.toNat = 34 then "\\\""
else if c.toNat = 92 then "\\\\"
else if c.toNat = 10 then "\\n"
else if c.toNat = 13 then "\\r"
else if c.toNat = 9 then "\\t"
else if c.toNat = 8 then "\\b"
else if c.toNat = 12 then "\\f"
else if c.toNat < 32 then
  "\\u00" ++ String.singleton (hexChar (c.toNat / 16)) ++
    String.singleton (hexChar (c.toNat % 16))
else String.singleton c

/-- JSON serialization of a string value in the `serde_json` style. -/
def jsonEscapeString (s : String) : String :=
"\"" ++ String.join (s.toList.map jsonEscapeChar) ++ "\""

/-- Serialization of the `ErrorJson` struct as `serde_json` emits it:
a one-field object whose single key is `error`. -/
def ErrorJson.serializeText (e : ErrorJson) : String :=
"\x7b\"error\":" ++ jsonEscapeString e.error ++ "\x7d"

/-- Model of `serde_json::ser::to_string` on `ErrorJson`: serializing this
struct is total, so the result is always the serialized text. -/
def serializeErrorJson (e : ErrorJson) : Except SerError String :=
Except.ok (ErrorJson.serializeText e)

/-- Boundary struct `CompileRequest` of `main.rs` (raw strings off the wire). -/
structure CompileRequest where
target : String
channel : String
mode : String
tests : Bool
code : String
deriving Repr, DecidableEq

/-- Boundary struct `ExecuteRequest` of `main.rs`. -/
structure ExecuteRequest where
channel : String
mode : String
tests : Bool
code : String
deriving Repr, DecidableEq

/-- Boundary struct `FormatRequest` of `main.rs`: exactly one field. -/
structure FormatRequest where
code : String
deriving Repr, DecidableEq

/-- Boundary struct `CompileResponse` of `main.rs`. -/
structure CompileResponse where
success : Bool
code : String
stdout : String
stderr : String
deriving Repr, DecidableEq

/-- Boundary struct `ExecuteResponse` of `main.rs`. -/
structure ExecuteResponse where
success : Bool
stdout : String
stderr : String
deriving Repr, DecidableEq

/-- Boundary struct `FormatResponse` of `main.rs`. -/
structure FormatResponse where
success : Bool
code : String
stdout : String
stderr : String
deriving Repr, DecidableEq

/-- Translation of `parse_target` in `main.rs`. -/
def parse_target (s : String) : Except Error sandbox.CompileTarget :=
if s = "asm" then Except.ok sandbox.CompileTarget.Assembly
else if s = "llvm-ir" then Except.ok sandbox.CompileTarget.LlvmIr
else Except.error (Error.InvalidTarget s)

/-- Translation of `parse_channel` in `main.rs`. -/
def parse_channel (s : String) : Except Error sandbox.Channel :=
if s = "stable" then Except.ok sandbox.Channel.Stable
else if s = "beta" then Except.ok sandbox.Channel.Beta
else if s = "nightly" then Except.ok sandbox.Channel.Nightly
else Except.error (Error.InvalidChannel s)

/-- Translation of `parse_mode` in `main.rs`. -/
def parse_mode (s : String) : Except Error sandbox.Mode :=
if s = "debug" then Except.ok sandbox.Mode.Debug
else if s = "release" then Except.ok sandbox.Mode.Release
else Except.error (Error.InvalidMode s)

/-- Translation of `TryFrom<CompileRequest> for sandbox::CompileRequest`,
with the `try!` macro expanded to the explicit match it abbreviates. -/
def CompileRequest.try_into (me : CompileRequest) : Except Error sandbox.CompileRequest :=
match parse_target me.target with
| Except.error e => Except.error e
| Except.ok target =>
  match parse_channel me.channel with
  | Except.error e => Except.error e
  | Except.ok channel =>
    match parse_mode me.mode with
    | Except.error e => Except.error e
    | Except.ok mode =>
      Except.ok
        { target := target, channel := channel, mode := mode,
          tests := me.tests, code := me.code }

/-- Translation of `TryFrom<ExecuteRequest> for sandbox::ExecuteRequest`. -/
def ExecuteRequest.try_into (me : ExecuteRequest) : Except Error sandbox.ExecuteRequest :=
match parse_channel me.channel with
| Except.error e => Except.error e
| Except.ok channel =>
  match parse_mode me.mode with
  | Except.error e => Except.error e
  | Except.ok mode =>
    Except.ok
      { channel := channel, mode := mode, tests := me.tests, code := me.code }

/-- Translation of `From<FormatRequest> for sandbox::FormatRequest`: a total
conversion, in contrast to the two fallible ones above. -/
def FormatRequest.into (me : FormatRequest) : sandbox.FormatRequest :=
{ code := me.code }

/-- Translation of `From<sandbox::CompileResponse> for CompileResponse`. -/
def CompileResponse.from (me : sandbox.CompileResponse) : CompileResponse :=
{ success := me.success, code := me.code, stdout := me.stdout, stderr := me.stderr }

/-- Translation of `From<sandbox::ExecuteResponse> for ExecuteResponse`. -/
def ExecuteResponse.from (me : sandbox.ExecuteResponse) : ExecuteResponse :=
{ success := me.success, stdout := me.stdout, stderr := me.stderr }

/-- Translation of `From<sandbox::FormatResponse> for FormatResponse`. -/
def FormatResponse.from (me : sandbox.FormatResponse) : FormatResponse :=
{ success := me.success, code := me.code, stdout := me.stdout, stderr := me.stderr }

/-- HTTP status values used by the handler: `status::Ok` and
`status::InternalServerError` from the iron crate. -/
inductive Status
| ok
| internalServerError
deriving Repr, DecidableEq

/-- Numeric code of each status value. -/
def Status.code : Status → Nat
| Status.ok => 200
| Status.internalServerError => 500

/-- The HTTP response the handler builds: a status and a body string. -/
structure HttpResponse where
status : Status
body : String
deriving Repr, DecidableEq

/-- Trace of the effectful calls the handler makes on the sandbox core:
how many times `Sandbox::new` ran, and which validated requests each of
the three core operations received, in order. -/
structure Trace where
sandboxNewCalls : Nat
compileCalls : List sandbox.CompileRequest
executeCalls : List sandbox.ExecuteRequest
formatCalls : List sandbox.FormatRequest
deriving Repr, DecidableEq

/-- Trace at the start of a request: nothing has run yet. -/
def Trace.empty : Trace :=
{ sandboxNewCalls := 0, compileCalls := [], executeCalls := [], formatCalls := [] }

/-- Modelled from the spec: the observable behavior of the sandbox core at
the boundary, one fallible constructor and three fallible operations (the
sandbox module itself is not among the reviewed sources). -/
structure SandboxBehavior where
new : Except sandbox.Error sandbox.Sandbox
compile : sandbox.CompileRequest → Except sandbox.Error sandbox.CompileResponse
execute : sandbox.ExecuteRequest → Except sandbox.Error sandbox.ExecuteResponse
format : sandbox.FormatRequest → Except sandbox.Error sandbox.FormatResponse

/-- Error arm of the final match in `with_sandbox`: serialize the
`ErrorJson` report, falling back to `FATAL_ERROR_JSON` when even that
serialization fails; the status is `InternalServerError` either way. -/
def errorResponse (serErr : ErrorJson → Except SerError String) (err : Error) : HttpResponse :=
match serErr { error := err.displayText } with
| Except.ok errorStr => { status := Status.internalServerError, body := errorStr }
| Except.error _ => { status := Status.internalServerError, body := FATAL_ERROR_JSON }

/-- Chain of `map_err` and `and_then` calls that computes the local
`response` value inside `with_sandbox` in `main.rs`: map a body parse
failure to `Deserialization`, an absent body to `RequestMissing`, then run
`Sandbox::new`, the operation closure `f` and the response serialization,
each `try!` propagating its error.  The effect trace is threaded
explicitly and records the call of `Sandbox::new`. -/
def runRequest {Req Resp : Type}
    (getBody : Except BodyError (Option Req))
    (newSandbox : Except sandbox.Error sandbox.Sandbox)
    (f : sandbox.Sandbox → Req → Trace → Except Error Resp × Trace)
    (serResp : Resp → Except SerError String) : Except Error String × Trace :=
match getBody with
| Except.error e => (Except.error (Error.Deserialization e), Trace.empty)
| Except.ok none => (Except.error Error.RequestMissing, Trace.empty)
| Except.ok (some r) =>
  let t1 : Trace :=
    { Trace.empty with sandboxNewCalls := Trace.empty.sandboxNewCalls + 1 }
  match newSandbox with
  | Except.error e => (Except.error (Error.Sandbox e), t1)
  | Except.ok sb =>
    match f sb r t1 with
    | (Except.error e, t2) => (Except.error e, t2)
    | (Except.ok resp, t2) =>
      match serResp resp with
      | Except.error e => (Except.error (Error.Serialization e), t2)
      | Except.ok body => (Except.ok body, t2)

/-- Translation of `with_sandbox` in `main.rs`: compute the `response`
chain, then turn it into an HTTP response with the final match, using
`errorResponse` on the error arm. -/
def with_sandbox {Req Resp : Type}
    (getBody : Except BodyError (Option Req))
    (newSandbox : Except sandbox.Error sandbox.Sandbox)
    (f : sandbox.Sandbox → Req → Trace → Except Error Resp × Trace)
    (serResp : Resp → Except SerError String)
    (serErr : ErrorJson → Except SerError String) : HttpResponse × Trace :=
match runRequest getBody newSandbox f serResp with
| (Except.ok body, t) => ({ status := Status.ok, body := body }, t)
| (Except.error err, t) => (errorResponse serErr err, t)

/-- Operation closure passed by `compile` in `main.rs`: convert the raw
request with `try_into`, then invoke `sandbox.compile` on the validated
request and map the response and error back to boundary types.  The trace
records the core invocation. -/
def compileClosure (env : SandboxBehavior) (_sb : sandbox.Sandbox)
    (req : CompileRequest) (t : Trace) : Except Error CompileResponse × Trace :=
match CompileRequest.try_into req with
| Except.error e => (Except.error e, t)
| Except.ok sreq =>
  let t1 : Trace := { t with compileCalls := t.compileCalls ++ [sreq] }
  match env.compile sreq with
  | Except.ok r => (Except.ok (CompileResponse.from r), t1)
  | Except.error e => (Except.error (Error.Sandbox e), t1)

/-- Operation closure passed by `execute` in `main.rs`. -/
def executeClosure (env : SandboxBehavior) (_sb : sandbox.Sandbox)
    (req : ExecuteRequest) (t : Trace) : Except Error ExecuteResponse × Trace :=
match ExecuteRequest.try_into req with
| Except.error e => (Except.error e, t)
| Except.ok sreq =>
  let t1 : Trace := { t with executeCalls := t.executeCalls ++ [sreq] }
  match env.execute sreq with
  | Except.ok r => (Except.ok (ExecuteResponse.from r), t1)
  | Except.error e => (Except.error (Error.Sandbox e), t1)

/-- Operation closure passed by `format` in `main.rs`: the conversion is
the total `into`, so no validation error can occur here. -/
def formatClosure (env : SandboxBehavior) (_sb : sandbox.Sandbox)
    (req : FormatRequest) (t : Trace) : Except Error FormatResponse × Trace :=
let sreq : sandbox.FormatRequest := FormatRequest.into req
let t1 : Trace := { t with formatCalls := t.formatCalls ++ [sreq] }
match env.format sreq with
| Except.ok r => (Except.ok (FormatResponse.from r), t1)
| Except.error e => (Except.error (Error.Sandbox e), t1)

/-- Translation of the `compile` route handler in `main.rs`. -/
def compile (env : SandboxBehavior) (getBody : Except BodyError (Option CompileRequest))
    (serResp : CompileResponse → Except SerError String)
    (serErr : ErrorJson → Except SerError String) : HttpResponse × Trace :=
with_sandbox getBody env.new (compileClosure env) serResp serErr

/-- Translation of the `execute` route handler in `main.rs`. -/
def execute (env : SandboxBehavior) (getBody : Except BodyError (Option ExecuteRequest))
    (serResp : ExecuteResponse → Except SerError String)
    (serErr : ErrorJson → Except SerError String) : HttpResponse × Trace :=
with_sandbox getBody env.new (executeClosure env) serResp serErr

/-- Translation of the `format` route handler in `main.rs`. -/
def format (env : SandboxBehavior) (getBody : Except BodyError (Option FormatRequest))
    (serResp : FormatResponse → Except SerError String)
    (serErr : ErrorJson → Except SerError String) : HttpResponse × Trace :=
with_sandbox getBody env.new (formatClosure env) serResp serErr

end ui

namespace ui

/-- Concrete sandbox behavior where construction and every operation
succeed, for evaluating the handlers on closed inputs. -/
def envOk : SandboxBehavior :=
{ new := Except.ok sandbox.Sandbox.mk,
  compile := fun _ => Except.ok { success := true, code := "out", stdout := "", stderr := "" },
  execute := fun _ => Except.ok { success := true, stdout := "", stderr := "" },
  format := fun _ => Except.ok { success := true, code := "out", stdout := "", stderr := "" } }

/-- Concrete sandbox behavior where construction succeeds and every
operation fails with the same sandbox error. -/
def envErr : SandboxBehavior :=
{ new := Except.ok sandbox.Sandbox.mk,
  compile := fun _ => Except.error { display := "disk full" },
  execute := fun _ => Except.error { display := "disk full" },
  format := fun _ => Except.error { display := "disk full" } }

/-- Response serializer that always succeeds. -/
def serOk {Resp : Type} (_ : Resp) : Except SerError String :=
Except.ok "\x7b\x7d"

/-- Error serializer that always fails, exercising the fallback arm. -/
def serErrFail (_ : ErrorJson) : Except SerError String :=
Except.error { display := "ser fail" }

/-- Compile request whose channel string is not in the closed channel set. -/
def badChannelReq : CompileRequest :=
{ target := "asm", channel := "bogus", mode := "debug", tests := false,
  code := "fn main() \x7b\x7d" }

/-- Execute request whose mode string is not in the closed mode set. -/
def badModeExecReq : ExecuteRequest :=
{ channel := "stable", mode := "bogus", tests := false, code := "fn main() \x7b\x7d" }

/-- Compile request with all three enum strings valid. -/
def goodCompileReq : CompileRequest :=
{ target := "asm", channel := "stable", mode := "debug", tests := true,
  code := "fn main() \x7b\x7d" }

/-- Execute request with both enum strings valid. -/
def goodExecuteReq : ExecuteRequest :=
{ channel := "nightly", mode := "release", tests := false, code := "fn main() \x7b\x7d" }

/-- Validated sandbox-level request corresponding to `goodCompileReq`. -/
def goodCompileSreq : sandbox.CompileRequest :=
{ target := sandbox.CompileTarget.Assembly, channel := sandbox.Channel.Stable,
  mode := sandbox.Mode.Debug, tests := true, code := "fn main() \x7b\x7d" }

end ui

/-- C2: each string-to-enum parser is total onto its closed set plus an
error: `parse_channel` maps exactly the strings stable, beta, nightly to
the three channels and every other string to an `InvalidChannel`
request-validation error; `parse_mode` maps exactly debug and release and
every other string to `InvalidMode`; `parse_target` maps exactly asm and
llvm-ir and every other string to `InvalidTarget`. -/
theorem parse_functions_exact :
    (ui.parse_channel "stable" = Except.ok sandbox.Channel.Stable) ∧
    (ui.parse_channel "beta" = Except.ok sandbox.Channel.Beta) ∧
    (ui.parse_channel "nightly" = Except.ok sandbox.Channel.Nightly) ∧
    (∀ s : String, s ≠ "stable" → s ≠ "beta" → s ≠ "nightly" →
        ui.parse_channel s = Except.error (ui.Error.InvalidChannel s)) ∧
    (ui.parse_mode "debug" = Except.ok sandbox.Mode.Debug) ∧
    (ui.parse_mode "release" = Except.ok sandbox.Mode.Release) ∧
    (∀ s : String, s ≠ "debug" → s ≠ "release" →
        ui.parse_mode s = Except.error (ui.Error.InvalidMode s)) ∧
    (ui.parse_target "asm" = Except.ok sandbox.CompileTarget.Assembly) ∧
    (ui.parse_target "llvm-ir" = Except.ok sandbox.CompileTarget.LlvmIr) ∧
    (∀ s : String, s ≠ "asm" → s ≠ "llvm-ir" →
        ui.parse_target s = Except.error (ui.Error.InvalidTarget s)) := by
  refine ⟨rfl, rfl, rfl, ?_, rfl, rfl, ?_, rfl, rfl, ?_⟩
  · intro s h1 h2 h3
    unfold ui.parse_channel
    rw [if_neg h1, if_neg h2, if_neg h3]
  · intro s h1 h2
    unfold ui.parse_mode
    rw [if_neg h1, if_neg h2]
  · intro s h1 h2
    unfold ui.parse_target
    rw [if_neg h1, if_neg h2]

/-- Witness for C2: the parsers reject a concrete out-of-set string. -/
theorem parse_functions_exact_witness :
    ui.parse_channel "foo" = Except.error (ui.Error.InvalidChannel "foo") ∧
    ui.parse_mode "foo" = Except.error (ui.Error.InvalidMode "foo") ∧
    ui.parse_target "foo" = Except.error (ui.Error.InvalidTarget "foo") :=
  ⟨parse_functions_exact.2.2.2.1 "foo" (by decide) (by decide) (by decide),
   parse_functions_exact.2.2.2.2.2.2.1 "foo" (by decide) (by decide),
   parse_functions_exact.2.2.2.2.2.2.2.2.2 "foo" (by decide) (by decide)⟩

/-- C4: the three success-response conversions copy every field of the
sandbox-level response unchanged, and the boundary response types carry
no state beyond the listed fields (two responses agreeing on every listed
field are equal). -/
theorem response_conversions_copy_all_fields :
    (∀ r : sandbox.CompileResponse, ui.CompileResponse.from r =
        { success := r.success, code := r.code, stdout := r.stdout, stderr := r.stderr }) ∧
    (∀ r : sandbox.ExecuteResponse, ui.ExecuteResponse.from r =
        { success := r.success, stdout := r.stdout, stderr := r.stderr }) ∧
    (∀ r : sandbox.FormatResponse, ui.FormatResponse.from r =
        { success := r.success, code := r.code, stdout := r.stdout, stderr := r.stderr }) ∧
    (∀ a b : ui.CompileResponse, a.success = b.success → a.code = b.code →
        a.stdout = b.stdout → a.stderr = b.stderr → a = b) ∧
    (∀ a b : ui.ExecuteResponse, a.success = b.success →
        a.stdout = b.stdout → a.stderr = b.stderr → a = b) ∧
    (∀ a b : ui.FormatResponse, a.success = b.success → a.code = b.code →
        a.stdout = b.stdout → a.stderr = b.stderr → a = b) := by
  refine ⟨fun _ => rfl, fun _ => rfl, fun _ => rfl, ?_, ?_, ?_⟩
  · intro a b h1 h2 h3 h4
    cases a; cases b; simp_all
  · intro a b h1 h2 h3
    cases a; cases b; simp_all
  · intro a b h1 h2 h3 h4
    cases a; cases b; simp_all

/-- Witness for C4: the field-determined equality applied at a concrete
pair of equal responses. -/
theorem response_conversions_copy_all_fields_witness :
    ({ success := true, stdout := "a", stderr := "b" } : ui.ExecuteResponse) =
      { success := true, stdout := "a", stderr := "b" } :=
  response_conversions_copy_all_fields.2.2.2.2.1
    { success := true, stdout := "a", stderr := "b" }
    { success := true, stdout := "a", stderr := "b" } rfl rfl rfl

/-- C7: the boundary `FormatRequest` consists of the single field `code`
(two values agreeing on `code` are equal), and its conversion to the
sandbox-level format request is total and copies `code` unchanged. -/
theorem format_request_single_field_total :
    (∀ fr : ui.FormatRequest, ui.FormatRequest.into fr = { code := fr.code }) ∧
    (∀ a b : ui.FormatRequest, a.code = b.code → a = b) := by
  refine ⟨fun _ => rfl, ?_⟩
  intro a b h
  cases a; cases b; simp_all

/-- Witness for C7: the single-field equality applied at a concrete pair. -/
theorem format_request_single_field_total_witness :
    ({ code := "fn f()" } : ui.FormatRequest) = { code := "fn f()" } :=
  format_request_single_field_total.2 { code := "fn f()" } { code := "fn f()" } rfl

/-- C10: when the enum strings of a compile or execute request all parse,
the boundary conversion preserves the submitted source text and the tests
flag exactly: the sandbox-level request carries the same `code` and
`tests` as the raw request. -/
theorem try_into_preserves_code_and_tests :
    (∀ (r : ui.CompileRequest) (s : sandbox.CompileRequest),
        ui.CompileRequest.try_into r = Except.ok s →
        s.code = r.code ∧ s.tests = r.tests) ∧
    (∀ (r : ui.ExecuteRequest) (s : sandbox.ExecuteRequest),
        ui.ExecuteRequest.try_into r = Except.ok s →
        s.code = r.code ∧ s.tests = r.tests) := by
  constructor
  · intro r s h
    unfold ui.CompileRequest.try_into at h
    split at h
    · exact Except.noConfusion h
    · split at h
      · exact Except.noConfusion h
      · split at h
        · exact Except.noConfusion h
        · injection h with h2
          subst h2
          exact ⟨rfl, rfl⟩
  · intro r s h
    unfold ui.ExecuteRequest.try_into at h
    split at h
    · exact Except.noConfusion h
    · split at h
      · exact Except.noConfusion h
      · injection h with h2
        subst h2
        exact ⟨rfl, rfl⟩

/-- Witness for C10: the conversion of a concrete valid compile request
preserves its source text and tests flag. -/
theorem try_into_preserves_code_and_tests_witness :
    ({ target := sandbox.CompileTarget.Assembly, channel := sandbox.Channel.Stable,
       mode := sandbox.Mode.Debug, tests := true,
       code := "fn main() \x7b\x7d" } : sandbox.CompileRequest).code =
      ui.goodCompileReq.code ∧
    ({ target := sandbox.CompileTarget.Assembly, channel := sandbox.Channel.Stable,
       mode := sandbox.Mode.Debug, tests := true,
       code := "fn main() \x7b\x7d" } : sandbox.CompileRequest).tests =
      ui.goodCompileReq.tests :=
  try_into_preserves_code_and_tests.1 ui.goodCompileReq
    { target := sandbox.CompileTarget.Assembly, channel := sandbox.Channel.Stable,
      mode := sandbox.Mode.Debug, tests := true, code := "fn main() \x7b\x7d" } rfl

/-- C8: a request whose body parse yields no value is answered with the
`RequestMissing` error (displayed as the fixed no-request message) while
the trace still shows zero calls of the sandbox constructor. -/
theorem missing_request_no_sandbox :
    ∀ (Req Resp : Type) (newSandbox : Except sandbox.Error sandbox.Sandbox)
      (f : sandbox.Sandbox → Req → ui.Trace → Except ui.Error Resp × ui.Trace)
      (serResp : Resp → Except ui.SerError String)
      (serErr : ui.ErrorJson → Except ui.SerError String),
      ui.with_sandbox (Except.ok (none : Option Req)) newSandbox f serResp serErr =
        (ui.errorResponse serErr ui.Error.RequestMissing, ui.Trace.empty) ∧
      ui.Error.RequestMissing.displayText = "No request was provided" ∧
      ui.Trace.empty.sandboxNewCalls = 0 := by
  intro Req Resp newSandbox f serResp serErr
  exact ⟨rfl, rfl, rfl⟩

/-- C5: the handler always produces a well-formed HTTP response: every run
of `with_sandbox` ends in the success arm or in `errorResponse`, and when
serializing the error report itself fails, `errorResponse` falls back to
the fixed `FATAL_ERROR_JSON` body with the error status. -/
theorem with_sandbox_always_responds :
    (∀ (Req Resp : Type) (getBody : Except ui.BodyError (Option Req))
        (newSandbox : Except sandbox.Error sandbox.Sandbox)
        (f : sandbox.Sandbox → Req → ui.Trace → Except ui.Error Resp × ui.Trace)
        (serResp : Resp → Except ui.SerError String)
        (serErr : ui.ErrorJson → Except ui.SerError String),
        (ui.with_sandbox getBody newSandbox f serResp serErr).1.status = ui.Status.ok ∨
        ∃ err : ui.Error,
          (ui.with_sandbox getBody newSandbox f serResp serErr).1 =
            ui.errorResponse serErr err) ∧
    (∀ (serErr : ui.ErrorJson → Except ui.SerError String) (err : ui.Error)
        (se : ui.SerError),
        serErr { error := err.displayText } = Except.error se →
        ui.errorResponse serErr err =
          { status := ui.Status.internalServerError, body := ui.FATAL_ERROR_JSON }) := by
  constructor
  · intro Req Resp getBody newSandbox f serResp serErr
    unfold ui.with_sandbox
    rcases h : ui.runRequest getBody newSandbox f serResp with ⟨res, t⟩
    cases res with
    | ok body => exact Or.inl rfl
    | error err => exact Or.inr ⟨err, rfl⟩
  · intro serErr err se h
    unfold ui.errorResponse
    rw [h]

/-- Witness for C5: with an error serializer that always fails, the
fallback body is returned for a concrete error. -/
theorem with_sandbox_always_responds_witness :
    ui.errorResponse ui.serErrFail ui.Error.RequestMissing =
      { status := ui.Status.internalServerError, body := ui.FATAL_ERROR_JSON } :=
  with_sandbox_always_responds.2 ui.serErrFail ui.Error.RequestMissing
    { display := "ser fail" } rfl

/-- C3: a sandbox error from any of the three operations is converted into
the single-field ErrorJson body whose text is the display form of the
typed error, namely the sandbox-operation-failed message followed by the
display of the inner sandbox error, with the error status rather than a
success response. -/
theorem sandbox_error_reported_as_message :
    (∀ (env : ui.SandboxBehavior) (serResp : ui.CompileResponse → Except ui.SerError String)
        (req : ui.CompileRequest) (sreq : sandbox.CompileRequest)
        (sb : sandbox.Sandbox) (e : sandbox.Error),
        env.new = Except.ok sb →
        ui.CompileRequest.try_into req = Except.ok sreq →
        env.compile sreq = Except.error e →
        (ui.compile env (Except.ok (some req)) serResp ui.serializeErrorJson).1 =
          { status := ui.Status.internalServerError,
            body := ui.ErrorJson.serializeText
              { error := "Sandbox operation failed: " ++ e.display } }) ∧
    (∀ (env : ui.SandboxBehavior) (serResp : ui.ExecuteResponse → Except ui.SerError String)
        (req : ui.ExecuteRequest) (sreq : sandbox.ExecuteRequest)
        (sb : sandbox.Sandbox) (e : sandbox.Error),
        env.new = Except.ok sb →
        ui.ExecuteRequest.try_into req = Except.ok sreq →
        env.execute sreq = Except.error e →
        (ui.execute env (Except.ok (some req)) serResp ui.serializeErrorJson).1 =
          { status := ui.Status.internalServerError,
            body := ui.ErrorJson.serializeText
              { error := "Sandbox operation failed: " ++ e.display } }) ∧
    (∀ (env : ui.SandboxBehavior) (serResp : ui.FormatResponse → Except ui.SerError String)
        (req : ui.FormatRequest) (sb : sandbox.Sandbox) (e : sandbox.Error),
        env.new = Except.ok sb →
        env.format (ui.FormatRequest.into req) = Except.error e →
        (ui.format env (Except.ok (some req)) serResp ui.serializeErrorJson).1 =
          { status := ui.Status.internalServerError,
            body := ui.ErrorJson.serializeText
              { error := "Sandbox operation failed: " ++ e.display } }) := by
  refine ⟨?_, ?_, ?_⟩
  · intro env serResp req sreq sb e hnew htry hop
    simp only [ui.compile, ui.with_sandbox, ui.runRequest, ui.compileClosure,
      hnew, htry, hop, ui.errorResponse, ui.serializeErrorJson, ui.Error.displayText]
  · intro env serResp req sreq sb e hnew htry hop
    simp only [ui.execute, ui.with_sandbox, ui.runRequest, ui.executeClosure,
      hnew, htry, hop, ui.errorResponse, ui.serializeErrorJson, ui.Error.displayText]
  · intro env serResp req sb e hnew hop
    simp only [ui.format, ui.with_sandbox, ui.runRequest, ui.formatClosure,
      hnew, hop, ui.errorResponse, ui.serializeErrorJson, ui.Error.displayText]

/-- Witness for C3: a concrete compile request against a sandbox whose
compile operation fails is answered with the serialized error message. -/
theorem sandbox_error_reported_as_message_witness :
    (ui.compile ui.envErr (Except.ok (some ui.goodCompileReq)) ui.serOk
        ui.serializeErrorJson).1 =
      { status := ui.Status.internalServerError,
        body := ui.ErrorJson.serializeText
          { error := "Sandbox operation failed: " ++
              (({ display := "disk full" } : sandbox.Error)).display } } :=
  sandbox_error_reported_as_message.1 ui.envErr ui.serOk ui.goodCompileReq
    { target := sandbox.CompileTarget.Assembly, channel := sandbox.Channel.Stable,
      mode := sandbox.Mode.Debug, tests := true, code := "fn main() \x7b\x7d" }
    sandbox.Sandbox.mk { display := "disk full" } rfl rfl rfl

/-- C9: every error outcome of the handler, validation failures included,
is reported with the internal-server-error status (code 500) and the same
single-field JSON body shape; no error class is given a different status. -/
theorem errors_uniform_500_single_field_json :
    (∀ (Req Resp : Type) (getBody : Except ui.BodyError (Option Req))
        (newSandbox : Except sandbox.Error sandbox.Sandbox)
        (f : sandbox.Sandbox → Req → ui.Trace → Except ui.Error Resp × ui.Trace)
        (serResp : Resp → Except ui.SerError String),
        (ui.with_sandbox getBody newSandbox f serResp ui.serializeErrorJson).1.status =
          ui.Status.ok ∨
        ∃ msg : String,
          (ui.with_sandbox getBody newSandbox f serResp ui.serializeErrorJson).1 =
            { status := ui.Status.internalServerError,
              body := "\x7b\"error\":" ++ ui.jsonEscapeString msg ++ "\x7d" }) ∧
    ui.Status.internalServerError.code = 500 ∧
    (∀ (env : ui.SandboxBehavior) (serResp : ui.CompileResponse → Except ui.SerError String)
        (req : ui.CompileRequest) (e : ui.Error) (sb : sandbox.Sandbox),
        env.new = Except.ok sb →
        ui.CompileRequest.try_into req = Except.error e →
        (ui.compile env (Except.ok (some req)) serResp ui.serializeErrorJson).1 =
          { status := ui.Status.internalServerError,
            body := ui.ErrorJson.serializeText { error := e.displayText } }) := by
  refine ⟨?_, rfl, ?_⟩
  · intro Req Resp getBody newSandbox f serResp
    unfold ui.with_sandbox
    rcases h : ui.runRequest getBody newSandbox f serResp with ⟨res, t⟩
    cases res with
    | ok body => exact Or.inl rfl
    | error err => exact Or.inr ⟨err.displayText, rfl⟩
  · intro env serResp req e sb hnew htry
    simp only [ui.compile, ui.with_sandbox, ui.runRequest, ui.compileClosure,
      hnew, htry, ui.errorResponse, ui.serializeErrorJson]

/-- Witness for C9: a concrete invalid-channel compile request is answered
with status 500 and the serialized single-field error body. -/
theorem errors_uniform_500_single_field_json_witness :
    (ui.compile ui.envOk (Except.ok (some ui.badChannelReq)) ui.serOk
        ui.serializeErrorJson).1 =
      { status := ui.Status.internalServerError,
        body := ui.ErrorJson.serializeText
          { error := (ui.Error.InvalidChannel "bogus").displayText } } :=
  errors_uniform_500_single_field_json.2.2 ui.envOk ui.serOk ui.badChannelReq
    (ui.Error.InvalidChannel "bogus") sandbox.Sandbox.mk rfl rfl

/-- C6: for every request on which an operation actually runs, the trace
shows exactly one sandbox construction and exactly one core operation
invocation, on the validated request, with the other two operations never
invoked. -/
theorem one_sandbox_one_operation :
    (∀ (env : ui.SandboxBehavior) (serResp : ui.CompileResponse → Except ui.SerError String)
        (serErr : ui.ErrorJson → Except ui.SerError String)
        (req : ui.CompileRequest) (sreq : sandbox.CompileRequest) (sb : sandbox.Sandbox),
        env.new = Except.ok sb →
        ui.CompileRequest.try_into req = Except.ok sreq →
        (ui.compile env (Except.ok (some req)) serResp serErr).2 =
          { sandboxNewCalls := 1, compileCalls := [sreq],
            executeCalls := [], formatCalls := [] }) ∧
    (∀ (env : ui.SandboxBehavior) (serResp : ui.ExecuteResponse → Except ui.SerError String)
        (serErr : ui.ErrorJson → Except ui.SerError String)
        (req : ui.ExecuteRequest) (sreq : sandbox.ExecuteRequest) (sb : sandbox.Sandbox),
        env.new = Except.ok sb →
        ui.ExecuteRequest.try_into req = Except.ok sreq →
        (ui.execute env (Except.ok (some req)) serResp serErr).2 =
          { sandboxNewCalls := 1, compileCalls := [],
            executeCalls := [sreq], formatCalls := [] }) ∧
    (∀ (env : ui.SandboxBehavior) (serResp : ui.FormatResponse → Except ui.SerError String)
        (serErr : ui.ErrorJson → Except ui.SerError String)
        (req : ui.FormatRequest) (sb : sandbox.Sandbox),
        env.new = Except.ok sb →
        (ui.format env (Except.ok (some req)) serResp serErr).2 =
          { sandboxNewCalls := 1, compileCalls := [],
            executeCalls := [], formatCalls := [ui.FormatRequest.into req] }) := by
  refine ⟨?_, ?_, ?_⟩
  · intro env serResp serErr req sreq sb hnew htry
    simp only [ui.compile, ui.with_sandbox, ui.runRequest, ui.compileClosure, hnew, htry]
    cases hop : env.compile sreq with
    | ok r =>
      cases hs : serResp (ui.CompileResponse.from r) with
      | ok body => simp [hs, ui.Trace.empty]
      | error e2 => simp [hs, ui.Trace.empty]
    | error e2 => simp [ui.Trace.empty]
  · intro env serResp serErr req sreq sb hnew htry
    simp only [ui.execute, ui.with_sandbox, ui.runRequest, ui.executeClosure, hnew, htry]
    cases hop : env.execute sreq with
    | ok r =>
      cases hs : serResp (ui.ExecuteResponse.from r) with
      | ok body => simp [hs, ui.Trace.empty]
      | error e2 => simp [hs, ui.Trace.empty]
    | error e2 => simp [ui.Trace.empty]
  · intro env serResp serErr req sb hnew
    simp only [ui.format, ui.with_sandbox, ui.runRequest, ui.formatClosure, hnew]
    cases hop : env.format (ui.FormatRequest.into req) with
    | ok r =>
      cases hs : serResp (ui.FormatResponse.from r) with
      | ok body => simp [hs, ui.Trace.empty]
      | error e2 => simp [hs, ui.Trace.empty]
    | error e2 => simp [ui.Trace.empty]

/-- Witness for C6: on a concrete valid compile request against a
succeeding sandbox, the trace shows one construction and one compile
invocation. -/
theorem one_sandbox_one_operation_witness :
    (ui.compile ui.envOk (Except.ok (some ui.goodCompileReq)) ui.serOk
        ui.serializeErrorJson).2 =
      { sandboxNewCalls := 1, compileCalls := [ui.goodCompileSreq],
        executeCalls := [], formatCalls := [] } :=
  one_sandbox_one_operation.1 ui.envOk ui.serOk ui.serializeErrorJson ui.goodCompileReq
    ui.goodCompileSreq sandbox.Sandbox.mk rfl rfl

/-- Counterexample for C1: on a compile request whose channel string is
outside the closed set, the handler nevertheless calls the sandbox
constructor once, because construction precedes the enum validation done
inside the operation closure; the claim that no Sandbox construction
occurs for such a request is therefore false on this code. -/
theorem sandbox_constructed_despite_invalid_channel :
    ui.CompileRequest.try_into ui.badChannelReq =
      Except.error (ui.Error.InvalidChannel "bogus") ∧
    (ui.compile ui.envOk (Except.ok (some ui.badChannelReq)) ui.serOk
        ui.serializeErrorJson).2.sandboxNewCalls = 1 ∧
    (ui.compile ui.envOk (Except.ok (some ui.badChannelReq)) ui.serOk
        ui.serializeErrorJson).2.sandboxNewCalls ≠ 0 := by
  refine ⟨rfl, rfl, ?_⟩
  intro h
  exact Nat.succ_ne_zero 0 h

/-- C1 (amended): for every compile or execute request whose enum strings
fail validation, the request is rejected with the validation error before
any core operation is invoked — no compile, execute or format call ever
reaches the core, so the core never receives an unrecognized enum value —
but the Sandbox constructor has already run once by that point. -/
theorem invalid_enum_rejected_before_core_operation :
    (∀ (env : ui.SandboxBehavior) (serResp : ui.CompileResponse → Except ui.SerError String)
        (serErr : ui.ErrorJson → Except ui.SerError String)
        (req : ui.CompileRequest) (e : ui.Error) (sb : sandbox.Sandbox),
        env.new = Except.ok sb →
        ui.CompileRequest.try_into req = Except.error e →
        (ui.compile env (Except.ok (some req)) serResp serErr).1 =
          ui.errorResponse serErr e ∧
        (ui.compile env (Except.ok (some req)) serResp serErr).2 =
          { sandboxNewCalls := 1, compileCalls := [],
            executeCalls := [], formatCalls := [] }) ∧
    (∀ (env : ui.SandboxBehavior) (serResp : ui.ExecuteResponse → Except ui.SerError String)
        (serErr : ui.ErrorJson → Except ui.SerError String)
        (req : ui.ExecuteRequest) (e : ui.Error) (sb : sandbox.Sandbox),
        env.new = Except.ok sb →
        ui.ExecuteRequest.try_into req = Except.error e →
        (ui.execute env (Except.ok (some req)) serResp serErr).1 =
          ui.errorResponse serErr e ∧
        (ui.execute env (Except.ok (some req)) serResp serErr).2 =
          { sandboxNewCalls := 1, compileCalls := [],
            executeCalls := [], formatCalls := [] }) := by
  constructor
  · intro env serResp serErr req e sb hnew htry
    constructor
    · simp only [ui.compile, ui.with_sandbox, ui.runRequest, ui.compileClosure, hnew, htry]
    · simp [ui.compile, ui.with_sandbox, ui.runRequest, ui.compileClosure, hnew, htry,
        ui.Trace.empty]
  · intro env serResp serErr req e sb hnew htry
    constructor
    · simp only [ui.execute, ui.with_sandbox, ui.runRequest, ui.executeClosure, hnew, htry]
    · simp [ui.execute, ui.with_sandbox, ui.runRequest, ui.executeClosure, hnew, htry,
        ui.Trace.empty]

/-- Witness for C1 (amended): a concrete invalid-mode execute request is
rejected with the validation error while the trace shows the one sandbox
construction and no core operation. -/
theorem invalid_enum_rejected_before_core_operation_witness :
    (ui.execute ui.envOk (Except.ok (some ui.badModeExecReq)) ui.serOk
        ui.serializeErrorJson).1 =
      ui.errorResponse ui.serializeErrorJson (ui.Error.InvalidMode "bogus") ∧
    (ui.execute ui.envOk (Except.ok (some ui.badModeExecReq)) ui.serOk
        ui.serializeErrorJson).2 =
      { sandboxNewCalls := 1, compileCalls := [],
        executeCalls := [], formatCalls := [] } :=
  invalid_enum_rejected_before_core_operation.2 ui.envOk ui.serOk ui.serializeErrorJson
    ui.badModeExecReq (ui.Error.InvalidMode "bogus") sandbox.Sandbox.mk rfl rfl
